import Mathlib

set_option linter.unnecessarySeqFocus false

/-!
Verification of the alx_travel_app listings core: a shallow embedding of the
booking / availability / review / notification logic found in
`listings/models.py`, `listings/serializer.py`, `listings/views.py`,
`listings/filters.py` and `listings/tasks.py`, together with theorems that
settle the specified properties.

Dates are modelled as integers (days); Django `DecimalField` money amounts are
modelled as rationals.
-/

namespace AlxTravel

/-- Booking status choices from `Booking.STATUS_CHOICES` in models.py
(note the source spells the cancelled state `canceled`). -/
inductive BookingStatus where
  | pending
  | confirmed
  | canceled
  | completed
deriving DecidableEq, Repr

/-- A property listing, with the fields of `Listing` (models.py) that the
booking, availability, review and filter logic reads. -/
structure Listing where
  propertyId : Nat
  hostId : Nat
  maxGuests : Nat
  pricePerNight : ℚ
deriving DecidableEq, Repr

/-- A booking, with the fields of `Booking` (models.py) used by the
availability, lifecycle and review logic. -/
structure Booking where
  bookingId : Nat
  propertyId : Nat
  userId : Nat
  startDate : ℤ
  endDate : ℤ
  guests : Nat
  totalPrice : ℚ
  status : BookingStatus
deriving DecidableEq, Repr

/-- A review, with the fields of `Review` (models.py) used by
`ReviewSerializer.create` and `Listing.average_rating`. -/
structure Review where
  reviewId : Nat
  bookingId : Nat
  propertyId : Nat
  userId : Nat
  rating : Nat
deriving DecidableEq, Repr

/-- Models `status__in=['pending', 'confirmed']` — the statuses that count as
conflicts in the availability query of `ListingViewSet.availability` and in
the two `ListingFilter` availability filters. -/
def isActiveStatus : BookingStatus → Bool
  | .pending => true
  | .confirmed => true
  | .canceled => false
  | .completed => false

/-- The booking filter of `ListingViewSet.availability` (views.py):
`property=listing, status__in=['pending','confirmed'],
start_date__lt=end_date, end_date__gt=start_date`. -/
def availabilityConflict (l : Listing) (s e : ℤ) (b : Booking) : Bool :=
  b.propertyId == l.propertyId && isActiveStatus b.status
    && b.startDate < e && s < b.endDate

/-- Models `conflicting_bookings` in `ListingViewSet.availability`: the bookings of
the store matching the conflict filter for listing `l` and query range
`[s, e)`. -/
def conflictingBookings (bookings : List Booking) (l : Listing) (s e : ℤ) :
    List Booking :=
  bookings.filter (availabilityConflict l s e)

/-- Models `is_available = not conflicting_bookings.exists()` in
`ListingViewSet.availability`. -/
def isAvailable (bookings : List Booking) (l : Listing) (s e : ℤ) : Bool :=
  conflictingBookings bookings l s e |>.isEmpty

/-- C4. The availability check reports a conflict exactly for the
pending-or-confirmed bookings of the listing whose half-open date range
overlaps the queried `[s, e)`; a booking that ends on the query's start day
never conflicts (back-to-back allowed), and canceled or completed bookings
never block availability. -/
theorem c4_availability_conflicts (bookings : List Booking) (l : Listing)
    (s e : ℤ) (b : Booking) :
    (b ∈ conflictingBookings bookings l s e ↔
      (b ∈ bookings ∧ b.propertyId = l.propertyId ∧
        (b.status = .pending ∨ b.status = .confirmed) ∧
        b.startDate < e ∧ s < b.endDate)) ∧
    (b.endDate = s → b ∉ conflictingBookings bookings l s e) ∧
    ((b.status = .canceled ∨ b.status = .completed) →
      b ∉ conflictingBookings bookings l s e) := by
  have hmem : b ∈ conflictingBookings bookings l s e ↔
      (b ∈ bookings ∧ b.propertyId = l.propertyId ∧
        (b.status = .pending ∨ b.status = .confirmed) ∧
        b.startDate < e ∧ s < b.endDate) := by
    simp only [conflictingBookings, List.mem_filter, availabilityConflict,
      Bool.and_eq_true, beq_iff_eq, decide_eq_true_eq]
    constructor
    · rintro ⟨hb, ⟨⟨hp, hact⟩, hlt⟩, hgt⟩
      refine ⟨hb, hp, ?_, hlt, hgt⟩
      cases hst : b.status <;> simp [isActiveStatus, hst] at hact ⊢
    · rintro ⟨hb, hp, hact, hlt, hgt⟩
      refine ⟨hb, ⟨⟨hp, ?_⟩, hlt⟩, hgt⟩
      rcases hact with h | h <;> simp [isActiveStatus, h]
  refine ⟨hmem, ?_, ?_⟩
  · intro hend hmem'
    have := (hmem.mp hmem').2.2.2.2
    omega
  · intro hst hmem'
    have := (hmem.mp hmem').2.2.1
    rcases hst with h | h <;> rcases this with h' | h' <;> simp [h] at h'

/-- Witness for C4 at a concrete store: the booking `[0, 5)` (confirmed)
conflicts with the query `[3, 7)` on its listing, a booking ending on day 3
does not conflict with a query starting on day 3, and a canceled booking
never conflicts. -/
theorem c4_availability_conflicts_witness :
    (⟨0, 1, 7, 0, 5, 2, 500, .confirmed⟩ : Booking) ∈
      conflictingBookings [⟨0, 1, 7, 0, 5, 2, 500, .confirmed⟩]
        ⟨1, 9, 4, 100⟩ 3 7 ∧
    (⟨0, 1, 7, 0, 3, 2, 300, .confirmed⟩ : Booking) ∉
      conflictingBookings [⟨0, 1, 7, 0, 3, 2, 300, .confirmed⟩]
        ⟨1, 9, 4, 100⟩ 3 7 ∧
    (⟨0, 1, 7, 0, 5, 2, 500, .canceled⟩ : Booking) ∉
      conflictingBookings [⟨0, 1, 7, 0, 5, 2, 500, .canceled⟩]
        ⟨1, 9, 4, 100⟩ 3 7 := by
  refine ⟨?_, ?_, ?_⟩
  · exact ((c4_availability_conflicts [⟨0, 1, 7, 0, 5, 2, 500, .confirmed⟩]
      ⟨1, 9, 4, 100⟩ 3 7 ⟨0, 1, 7, 0, 5, 2, 500, .confirmed⟩).1).mpr
      (by refine ⟨by decide, rfl, Or.inr rfl, by decide, by decide⟩)
  · exact (c4_availability_conflicts [⟨0, 1, 7, 0, 3, 2, 300, .confirmed⟩]
      ⟨1, 9, 4, 100⟩ 3 7 ⟨0, 1, 7, 0, 3, 2, 300, .confirmed⟩).2.1 rfl
  · exact (c4_availability_conflicts [⟨0, 1, 7, 0, 5, 2, 500, .canceled⟩]
      ⟨1, 9, 4, 100⟩ 3 7 ⟨0, 1, 7, 0, 5, 2, 500, .canceled⟩).2.2
      (Or.inl rfl)

/-! ## Booking creation: `BookingSerializer` (serializer.py) and
`BookingViewSet.create` / `perform_create` (views.py) -/

/-- The write-only payload of a booking-creation request, as accepted by
`BookingSerializer` (serializer.py): property and user references, the date
range, the guest count and the client-supplied `total_price` field. -/
structure BookingRequest where
  propertyId : Nat
  userId : Nat
  startDate : ℤ
  endDate : ℤ
  guests : Nat
  totalPrice : ℚ
deriving DecidableEq, Repr

/-- The persistent store the booking endpoints read and write. -/
structure AppState where
  listings : List Listing
  users : List Nat
  bookings : List Booking
deriving DecidableEq, Repr

/-- Models `Listing.objects.get(property_id=...)` — lookup of a listing by id. -/
def findListing (listings : List Listing) (pid : Nat) : Option Listing :=
  listings.find? (fun l => l.propertyId == pid)

/-- Models `BookingSerializer.validate` (serializer.py): rejects `end_date <=
start_date`; then, when a property id and a non-zero guest count are present,
looks the listing up and rejects a guest count above `listing.max_guests`.
It performs no availability or overlap check. -/
def validateBooking (listings : List Listing) (r : BookingRequest) :
    Except String Unit :=
  if r.endDate ≤ r.startDate then
    .error "End date must be after the start date"
  else if r.guests != 0 then
    match findListing listings r.propertyId with
    | none => .error "Invalid property_id"
    | some l =>
      if r.guests > l.maxGuests then
        .error "Guests count cannot exceed property limit"
      else .ok ()
  else .ok ()

/-- The booking row built by `BookingSerializer.create` (serializer.py):
`Booking.objects.create(property=..., user=..., **validated_data)`. The dates,
guest count and `total_price` come straight from the validated client data;
the status takes the model default `pending`. -/
def newBooking (st : AppState) (r : BookingRequest) : Booking :=
  { bookingId := st.bookings.length
    propertyId := r.propertyId
    userId := r.userId
    startDate := r.startDate
    endDate := r.endDate
    guests := r.guests
    totalPrice := r.totalPrice
    status := .pending }

/-- Models `serializer.save()` as called by `BookingViewSet.create`, which runs
`BookingSerializer.create`: resolve the property and user, then insert the new
booking row. -/
def serializerSave (st : AppState) (r : BookingRequest) :
    Except String (AppState × Booking) :=
  match findListing st.listings r.propertyId, st.users.contains r.userId with
  | some _, true =>
      let b := newBooking st r
      .ok ({ st with bookings := st.bookings ++ [b] }, b)
  | _, _ => .error "Invalid property or user ID"

/-- Models `BookingViewSet.perform_create` (views.py) computes
`total_price = listing.price_per_night * nights` with
`nights = (end_date - start_date).days`. This method is dead code on the
create path: the overridden `BookingViewSet.create` calls `serializer.save()`
directly and never invokes `perform_create`. -/
def performCreateTotalPrice (l : Listing) (r : BookingRequest) : ℚ :=
  l.pricePerNight * ((r.endDate - r.startDate : ℤ) : ℚ)

/-- An HTTP response, reduced to the status code and the message the booking
endpoints put in the body. -/
structure HttpResponse where
  status : Nat
  message : String
deriving DecidableEq, Repr

/-- Python name lookup of the local variable `e` inside the email-failure
handler of `BookingViewSet.create` (views.py line 457): the handler logs an
f-string interpolating `str(e)`, but `e` is only assigned by the *outer*
`except Exception as e` clause and is unbound at that point, so the lookup
raises `UnboundLocalError`. -/
def strLocalE (env_e : Option String) : Except String String :=
  match env_e with
  | some s => .ok s
  | none => .error "UnboundLocalError"

/-- The `except Exception as email_error` branch of `BookingViewSet.create`:
it first evaluates `logger.error(f... str(e))` — which raises, `e` being
unbound — and only afterwards would build the degraded-success 201 response. -/
def emailFailureHandler (_emailError : String) : Except String HttpResponse :=
  match strLocalE none with
  | .error exn => .error exn
  | .ok _ =>
      .ok { status := 201,
            message := "Booking created successfully but email notification failed." }

/-- Models `BookingViewSet.create` (views.py): validate via the serializer, save the
booking, then try to enqueue the confirmation email. `enqueueOk = false`
models `send_booking_confirmation_email.delay` raising (broker unavailable).
Any exception escaping the inner code is caught by the outer
`except Exception as e` and answered with HTTP 500; the serializer-invalid
branch evaluates the non-existent `status.HTTP_404_BAD_REQUEST`, whose
AttributeError likewise reaches the outer handler. Returns the final store and
the HTTP response. -/
def bookingCreateView (st : AppState) (r : BookingRequest) (enqueueOk : Bool) :
    AppState × HttpResponse :=
  match validateBooking st.listings r with
  | .error _ => (st, { status := 500, message := "Failed to create booking" })
  | .ok _ =>
      match serializerSave st r with
      | .error _ =>
          (st, { status := 500, message := "Failed to create booking" })
      | .ok (st', _) =>
          if enqueueOk then
            (st', { status := 201,
                    message := "Booking created successfully. Confirmation email will be sent to you shortly." })
          else
            match emailFailureHandler "broker unavailable" with
            | .ok resp => (st', resp)
            | .error _ =>
                (st', { status := 500, message := "Failed to create booking" })

/-- Two half-open booking date ranges overlap: `b1.start < b2.end AND
b2.start < b1.end`. -/
def bookingsOverlap (b1 b2 : Booking) : Prop :=
  b1.startDate < b2.endDate ∧ b2.startDate < b1.endDate

/-- The claimed store invariant: no two distinct pending-or-confirmed bookings
of the same listing have overlapping date ranges. -/
def noOverlapInvariant (bookings : List Booking) : Prop :=
  bookings.Pairwise (fun b1 b2 =>
    b1.propertyId = b2.propertyId → isActiveStatus b1.status = true →
      isActiveStatus b2.status = true → ¬ bookingsOverlap b1 b2)

/-- A concrete listing: id 1, host 9, capacity 4, 100 per night. -/
def exListing : Listing := ⟨1, 9, 4, 100⟩

/-- A concrete store: one listing, one user (id 7), one pending booking of
listing 1 over `[0, 5)`. -/
def exState : AppState :=
  { listings := [exListing]
    users := [7]
    bookings := [⟨0, 1, 7, 0, 5, 2, 500, .pending⟩] }

/-- A booking request for listing 1 over `[2, 7)`, overlapping the existing
pending booking `[0, 5)` of `exState`. -/
def exReq : BookingRequest := ⟨1, 7, 2, 7, 2, 500⟩

/-- C1 counterexample: the store `exState` satisfies the no-overlap invariant,
yet creating the overlapping request `exReq` succeeds with HTTP 201 and the
resulting store violates the invariant — booking creation performs no
availability check, so no-overlap is not preserved by create. -/
theorem c1_counterexample :
    noOverlapInvariant exState.bookings ∧
    (bookingCreateView exState exReq true).2.status = 201 ∧
    ¬ noOverlapInvariant (bookingCreateView exState exReq true).1.bookings := by
  refine ⟨?_, rfl, ?_⟩
  · simp [noOverlapInvariant, exState]
  · intro h
    simp only [bookingCreateView, validateBooking, serializerSave, exState,
      exReq, exListing, findListing, newBooking, noOverlapInvariant] at h
    norm_num [List.pairwise_cons, bookingsOverlap, isActiveStatus] at h

/-- C1 amended: booking creation validates only the date order and the guest
count, never availability — whenever the dates are ordered, the listing exists
with enough capacity and the user exists, create succeeds and appends the
booking, even when an overlapping pending-or-confirmed booking of the same
listing is already present; the resulting store then violates the no-overlap
invariant. -/
theorem c1_amended_create_ignores_overlap (st : AppState) (r : BookingRequest)
    (l : Listing)
    (hdate : r.startDate < r.endDate)
    (hl : findListing st.listings r.propertyId = some l)
    (hg : r.guests ≤ l.maxGuests)
    (hu : st.users.contains r.userId = true)
    (b0 : Booking) (hb0 : b0 ∈ st.bookings)
    (hprop : b0.propertyId = r.propertyId)
    (hact : isActiveStatus b0.status = true)
    (hov1 : b0.startDate < r.endDate) (hov2 : r.startDate < b0.endDate) :
    bookingCreateView st r true =
      ({ st with bookings := st.bookings ++ [newBooking st r] },
       { status := 201,
         message := "Booking created successfully. Confirmation email will be sent to you shortly." }) ∧
    ¬ noOverlapInvariant (st.bookings ++ [newBooking st r]) := by
  have hval : validateBooking st.listings r = .ok () := by
    unfold validateBooking
    rw [hl, if_neg (show ¬ r.endDate ≤ r.startDate by omega)]
    by_cases hz : r.guests != 0
    · rw [if_pos hz]
      show (if r.guests > l.maxGuests then
          (Except.error "Guests count cannot exceed property limit" :
            Except String Unit)
        else Except.ok ()) = Except.ok ()
      rw [if_neg (by omega)]
    · rw [if_neg hz]
  have hsave : serializerSave st r =
      .ok ({ st with bookings := st.bookings ++ [newBooking st r] },
           newBooking st r) := by
    unfold serializerSave
    rw [hl, hu]
  constructor
  · unfold bookingCreateView
    rw [hval, hsave]
    rfl
  · intro h
    have hpair := (List.pairwise_append.mp h).2.2 b0 hb0 (newBooking st r)
      (by simp)
    exact hpair (by simpa [newBooking] using hprop) hact rfl
      ⟨by simpa [newBooking] using hov1, by simpa [newBooking] using hov2⟩

/-- Witness for the amended C1 at the concrete store `exState` and request
`exReq`. -/
theorem c1_amended_witness :
    bookingCreateView exState exReq true =
      ({ exState with bookings := exState.bookings ++ [newBooking exState exReq] },
       { status := 201,
         message := "Booking created successfully. Confirmation email will be sent to you shortly." }) ∧
    ¬ noOverlapInvariant (exState.bookings ++ [newBooking exState exReq]) :=
  c1_amended_create_ignores_overlap exState exReq exListing (by decide)
    (by decide) (by decide) (by decide) ⟨0, 1, 7, 0, 5, 2, 500, .pending⟩
    (by simp [exState]) rfl rfl (by decide) (by decide)

/-- A valid, non-conflicting booking request for listing 1 over `[10, 13)`
(3 nights) carrying a client-supplied total_price of 999. -/
def exReq2 : BookingRequest := ⟨1, 7, 10, 13, 2, 999⟩

/-- C2. When enqueueing the confirmation email fails, the booking is persisted
but `BookingViewSet.create` answers HTTP 500 "Failed to create booking"
instead of the degraded-success 201: the email-failure handler's first line
logs an f-string reading the unbound local `e` and raises `UnboundLocalError`,
which falls through to the outer exception handler; the 201
"email notification failed" response two lines below is unreachable. -/
theorem c2_enqueue_failure_returns_500 :
    (bookingCreateView exState exReq2 false).1.bookings =
      exState.bookings ++ [newBooking exState exReq2] ∧
    (bookingCreateView exState exReq2 false).2 =
      { status := 500, message := "Failed to create booking" } := by
  constructor <;> rfl

/-- C3. `total_price` is not computed from the listing price at creation: the
create path persists the client-supplied value (999 here) although the listing
costs 100 per night for the 3 booked nights (300). The price computation of
`BookingViewSet.perform_create` yields 300, but that method is dead code —
the overridden `create` calls `serializer.save()` directly and never invokes
`perform_create`. -/
theorem c3_total_price_client_supplied :
    (bookingCreateView exState exReq2 true).1.bookings.getLast? =
      some (newBooking exState exReq2) ∧
    (newBooking exState exReq2).totalPrice = 999 ∧
    performCreateTotalPrice exListing exReq2 = 300 ∧
    (newBooking exState exReq2).totalPrice ≠
      performCreateTotalPrice exListing exReq2 := by
  refine ⟨rfl, rfl, ?_, ?_⟩
  · norm_num [performCreateTotalPrice, exListing, exReq2]
  · norm_num [performCreateTotalPrice, exListing, exReq2, newBooking]

/-! ## Booking lifecycle actions: `BookingViewSet.confirm` and
`BookingViewSet.cancel` (views.py) -/

/-- Result of the confirm / cancel booking actions: HTTP 403, HTTP 400, or
HTTP 200 with the updated booking. -/
inductive ActionResult where
  | forbidden (msg : String)
  | invalidState (msg : String)
  | ok (b : Booking)
deriving DecidableEq, Repr

/-- A Celery task enqueue observable from the request path. -/
inductive TaskCall where
  | confirmationEmail (bookingId : Nat)
  | cancellationEmail (bookingId : Nat) (reason : String)
  | reminderEmail (bookingId : Nat)
deriving DecidableEq, Repr

/-- Models `BookingViewSet.confirm` (views.py): 403 unless the actor is the property
host, 400 unless the booking is pending, otherwise the status becomes
`confirmed`. No task is enqueued. -/
def confirmBooking (hostId : Nat) (b : Booking) (actorId : Nat) :
    ActionResult × List TaskCall :=
  if actorId != hostId then
    (.forbidden "Only the property host can confirm bookings", [])
  else if b.status != .pending then
    (.invalidState "Only pending bookings can be confirmed", [])
  else (.ok { b with status := .confirmed }, [])

/-- Models `BookingViewSet.cancel` (views.py): 403 unless the actor is the booking's
guest or the property host, 400 when the status is `canceled` or `completed`,
otherwise the status becomes `canceled`. The action enqueues no task at all —
in particular no cancellation email (only the separate `destroy` endpoint
enqueues one) — and the request's cancellation reason is never read. -/
def cancelBooking (hostId : Nat) (b : Booking) (actorId : Nat) :
    ActionResult × List TaskCall :=
  if actorId != b.userId && actorId != hostId then
    (.forbidden "You can only cancel your own bookings or bookings for your properties",
     [])
  else if b.status == .canceled || b.status == .completed then
    (.invalidState "Cannot cancel booking", [])
  else (.ok { b with status := .canceled }, [])

/-- C6 counterexample: cancelling the pending booking of `exState` as its
guest (actor 7, host 9) succeeds and sets the status to `canceled`, but the
list of enqueued tasks is empty — no cancellation notification is enqueued,
contrary to the claim. -/
theorem c6_counterexample :
    (cancelBooking 9 ⟨0, 1, 7, 0, 5, 2, 500, .pending⟩ 7).1 =
      .ok ⟨0, 1, 7, 0, 5, 2, 500, .canceled⟩ ∧
    (cancelBooking 9 ⟨0, 1, 7, 0, 5, 2, 500, .pending⟩ 7).2 = [] := by
  constructor <;> rfl

/-- C6 amended: cancel fails with a 403 permission error unless the actor is
the booking's guest or the listing's host; fails with a 400 invalid-state
error whenever the status is `canceled` or `completed` (so a second cancel on
an already-cancelled booking fails); otherwise it sets the status to
`canceled` — but it enqueues no cancellation notification (or any task). -/
theorem c6_amended_cancel_spec (hostId : Nat) (b : Booking) (actorId : Nat) :
    ((actorId ≠ b.userId ∧ actorId ≠ hostId) →
      (cancelBooking hostId b actorId).1 =
        .forbidden "You can only cancel your own bookings or bookings for your properties") ∧
    ((actorId = b.userId ∨ actorId = hostId) →
      (b.status = .canceled ∨ b.status = .completed) →
      (cancelBooking hostId b actorId).1 =
        .invalidState "Cannot cancel booking") ∧
    ((actorId = b.userId ∨ actorId = hostId) →
      b.status ≠ .canceled → b.status ≠ .completed →
      (cancelBooking hostId b actorId).1 = .ok { b with status := .canceled }) ∧
    (cancelBooking hostId b actorId).2 = [] := by
  refine ⟨?_, ?_, ?_, ?_⟩
  · rintro ⟨h1, h2⟩
    simp [cancelBooking, h1, h2]
  · rintro (h | h) (h' | h') <;> simp [cancelBooking, h, h']
  · rintro (h | h) h1 h2 <;> simp [cancelBooking, h, h1, h2]
  · unfold cancelBooking
    split_ifs <;> rfl

/-- Witness for the amended C6: for a concrete pending booking (guest 7,
host 9) a cancel by the guest succeeds with status `canceled` and enqueues
nothing, and a second cancel on the already-cancelled booking fails with the
invalid-state error. -/
theorem c6_amended_witness :
    (cancelBooking 9 ⟨0, 1, 7, 0, 5, 2, 500, .pending⟩ 7).1 =
      .ok { (⟨0, 1, 7, 0, 5, 2, 500, .pending⟩ : Booking) with
            status := .canceled } ∧
    (cancelBooking 9 ⟨0, 1, 7, 0, 5, 2, 500, .pending⟩ 7).2 = [] ∧
    (cancelBooking 9 ⟨0, 1, 7, 0, 5, 2, 500, .canceled⟩ 7).1 =
      .invalidState "Cannot cancel booking" :=
  ⟨(c6_amended_cancel_spec 9 ⟨0, 1, 7, 0, 5, 2, 500, .pending⟩ 7).2.2.1
      (Or.inl rfl) (by decide) (by decide),
   (c6_amended_cancel_spec 9 ⟨0, 1, 7, 0, 5, 2, 500, .pending⟩ 7).2.2.2,
   (c6_amended_cancel_spec 9 ⟨0, 1, 7, 0, 5, 2, 500, .canceled⟩ 7).2.1
      (Or.inl rfl) (Or.inl rfl)⟩

/-- C9. Successful confirm and cancel change only the status field: the
listing reference, guest reference, dates, guest count, total price (and the
id) of the booking are unchanged by either action. -/
theorem c9_confirm_cancel_frame (hostId : Nat) (b b' : Booking)
    (actorId : Nat) :
    ((confirmBooking hostId b actorId).1 = .ok b' →
      b'.propertyId = b.propertyId ∧ b'.userId = b.userId ∧
      b'.startDate = b.startDate ∧ b'.endDate = b.endDate ∧
      b'.guests = b.guests ∧ b'.totalPrice = b.totalPrice ∧
      b'.bookingId = b.bookingId) ∧
    ((cancelBooking hostId b actorId).1 = .ok b' →
      b'.propertyId = b.propertyId ∧ b'.userId = b.userId ∧
      b'.startDate = b.startDate ∧ b'.endDate = b.endDate ∧
      b'.guests = b.guests ∧ b'.totalPrice = b.totalPrice ∧
      b'.bookingId = b.bookingId) := by
  constructor
  · intro h
    unfold confirmBooking at h
    split_ifs at h <;> simp_all
    subst h
    simp
  · intro h
    unfold cancelBooking at h
    split_ifs at h <;> simp_all
    subst h
    simp

/-- Witness for C9: confirming a concrete pending booking as the host, and
cancelling it as the guest, both leave every non-status field unchanged. -/
theorem c9_frame_witness :
    ((⟨0, 1, 7, 0, 5, 2, 500, .confirmed⟩ : Booking).propertyId =
        (⟨0, 1, 7, 0, 5, 2, 500, .pending⟩ : Booking).propertyId ∧
      (⟨0, 1, 7, 0, 5, 2, 500, .confirmed⟩ : Booking).userId =
        (⟨0, 1, 7, 0, 5, 2, 500, .pending⟩ : Booking).userId ∧
      (⟨0, 1, 7, 0, 5, 2, 500, .confirmed⟩ : Booking).startDate =
        (⟨0, 1, 7, 0, 5, 2, 500, .pending⟩ : Booking).startDate ∧
      (⟨0, 1, 7, 0, 5, 2, 500, .confirmed⟩ : Booking).endDate =
        (⟨0, 1, 7, 0, 5, 2, 500, .pending⟩ : Booking).endDate ∧
      (⟨0, 1, 7, 0, 5, 2, 500, .confirmed⟩ : Booking).guests =
        (⟨0, 1, 7, 0, 5, 2, 500, .pending⟩ : Booking).guests ∧
      (⟨0, 1, 7, 0, 5, 2, 500, .confirmed⟩ : Booking).totalPrice =
        (⟨0, 1, 7, 0, 5, 2, 500, .pending⟩ : Booking).totalPrice ∧
      (⟨0, 1, 7, 0, 5, 2, 500, .confirmed⟩ : Booking).bookingId =
        (⟨0, 1, 7, 0, 5, 2, 500, .pending⟩ : Booking).bookingId) ∧
    ((⟨0, 1, 7, 0, 5, 2, 500, .canceled⟩ : Booking).propertyId =
        (⟨0, 1, 7, 0, 5, 2, 500, .pending⟩ : Booking).propertyId ∧
      (⟨0, 1, 7, 0, 5, 2, 500, .canceled⟩ : Booking).userId =
        (⟨0, 1, 7, 0, 5, 2, 500, .pending⟩ : Booking).userId ∧
      (⟨0, 1, 7, 0, 5, 2, 500, .canceled⟩ : Booking).startDate =
        (⟨0, 1, 7, 0, 5, 2, 500, .pending⟩ : Booking).startDate ∧
      (⟨0, 1, 7, 0, 5, 2, 500, .canceled⟩ : Booking).endDate =
        (⟨0, 1, 7, 0, 5, 2, 500, .pending⟩ : Booking).endDate ∧
      (⟨0, 1, 7, 0, 5, 2, 500, .canceled⟩ : Booking).guests =
        (⟨0, 1, 7, 0, 5, 2, 500, .pending⟩ : Booking).guests ∧
      (⟨0, 1, 7, 0, 5, 2, 500, .canceled⟩ : Booking).totalPrice =
        (⟨0, 1, 7, 0, 5, 2, 500, .pending⟩ : Booking).totalPrice ∧
      (⟨0, 1, 7, 0, 5, 2, 500, .canceled⟩ : Booking).bookingId =
        (⟨0, 1, 7, 0, 5, 2, 500, .pending⟩ : Booking).bookingId) :=
  ⟨(c9_confirm_cancel_frame 9 ⟨0, 1, 7, 0, 5, 2, 500, .pending⟩
      ⟨0, 1, 7, 0, 5, 2, 500, .confirmed⟩ 9).1 rfl,
   (c9_confirm_cancel_frame 9 ⟨0, 1, 7, 0, 5, 2, 500, .pending⟩
      ⟨0, 1, 7, 0, 5, 2, 500, .canceled⟩ 7).2 rfl⟩

/-! ## Reviews: `ReviewSerializer.create` (serializer.py),
`Booking.can_be_reviewed` and `Listing.average_rating` (models.py) -/

/-- The store as seen by the review endpoints. -/
structure ReviewState where
  listings : List Listing
  users : List Nat
  bookings : List Booking
  reviews : List Review
deriving DecidableEq, Repr

/-- Models `Booking.can_be_reviewed` (models.py): `status == 'completed' and
end_date < today`. -/
def canBeReviewed (b : Booking) (today : ℤ) : Bool :=
  b.status == .completed && b.endDate < today

/-- Models `Booking.objects.get(booking_id=...)` — lookup of a booking by id. -/
def findBooking (bookings : List Booking) (bid : Nat) : Option Booking :=
  bookings.find? (fun b => b.bookingId == bid)

/-- The write-only payload of a review-creation request, as accepted by
`ReviewSerializer` (serializer.py). -/
structure ReviewRequest where
  bookingId : Nat
  propertyId : Nat
  userId : Nat
  rating : Nat
deriving DecidableEq, Repr

/-- Outcome of a review creation: created, serializer validation error, a
database integrity error raised by the insert, or an uncaught Python
exception (surfaced by the view's catch-all handler as HTTP 500). -/
inductive ReviewResult where
  | created (rv : Review)
  | validationError (msg : String)
  | integrityError
  | internalError (exn : String)
deriving DecidableEq, Repr

/-- Models the Python attribute lookup `Listing.object` at serializer.py line
198: a Django model class exposes its manager as `objects`, so the misspelled
name `object` does not exist and the lookup raises `AttributeError`. Had the
attribute existed it would have been the listing lookup. -/
def listingObjectAttr : Option (List Listing → Nat → Option Listing) := none

/-- Models `ReviewSerializer.create` (serializer.py lines 188-216): resolve
the booking (`Booking.objects.get`, a missing booking is caught by the
`DoesNotExist` clause and becomes the validation error); then line 198 reads
`property_obj = Listing.object.get(...)` — the misspelled manager raises
`AttributeError`, which the `except (…DoesNotExist…)` clause does not catch,
so it escapes to the view's catch-all handler and no review is ever created.
The remainder of the function body (user lookup, the `can_be_reviewed`
eligibility check, the one-to-one insert) is dead code, kept here under the
impossible `some` branch of the attribute lookup. -/
def createReview (st : ReviewState) (r : ReviewRequest) (today : ℤ) :
    ReviewResult × ReviewState :=
  match findBooking st.bookings r.bookingId with
  | none => (.validationError "Invalid booking, property or user Id", st)
  | some b =>
    match listingObjectAttr with
    | none => (.internalError "AttributeError", st)
    | some mgr =>
      match mgr st.listings r.propertyId, st.users.contains r.userId with
      | some _, true =>
          if ! canBeReviewed b today then
            (.validationError "Can only review completed bookings", st)
          else if st.reviews.any (fun rv => rv.bookingId == r.bookingId) then
            (.integrityError, st)
          else
            let rv : Review :=
              ⟨st.reviews.length, r.bookingId, r.propertyId, r.userId,
                r.rating⟩
            (.created rv, { st with reviews := st.reviews ++ [rv] })
      | _, _ => (.validationError "Invalid booking, property or user Id", st)

/-- A concrete review store: two listings (ids 1 and 2), users 7 and 8, and
one completed booking of listing 1 by guest 7 with end date 5. -/
def exReviewState : ReviewState :=
  { listings := [⟨1, 9, 4, 100⟩, ⟨2, 9, 4, 80⟩]
    users := [7, 8]
    bookings := [⟨0, 1, 7, 0, 5, 2, 500, .completed⟩]
    reviews := [] }

/-- C5 counterexample: a fully eligible request — the booking is completed
with end date 5 in the past of day 10, it has no existing review, the author
(user 7) is the booking's guest and the listing (id 1) is the booking's
listing — still fails: the misspelled `Listing.object` raises AttributeError,
surfaced as an internal error, and no review is stored. The claimed
"create_review succeeds if and only if …" is false in its "if" direction. -/
theorem c5_counterexample :
    canBeReviewed ⟨0, 1, 7, 0, 5, 2, 500, .completed⟩ 10 = true ∧
    (⟨0, 1, 7, 0, 5, 2, 500, .completed⟩ : Booking).userId = 7 ∧
    (⟨0, 1, 7, 0, 5, 2, 500, .completed⟩ : Booking).propertyId = 1 ∧
    exReviewState.reviews = [] ∧
    createReview exReviewState ⟨0, 1, 7, 5⟩ 10 =
      (.internalError "AttributeError", exReviewState) :=
  ⟨rfl, rfl, rfl, rfl, rfl⟩

/-- C5 amended: review creation never succeeds. When the referenced booking
does not exist the serializer fails with its validation error; whenever the
booking lookup succeeds, the misspelled manager access `Listing.object`
raises AttributeError, surfaced as an internal error. The result is never
`created` and the store is unchanged, for every request and date — eligible
requests included. -/
theorem c5_amended_create_review_never_succeeds (st : ReviewState)
    (r : ReviewRequest) (today : ℤ) :
    (∀ rv, (createReview st r today).1 ≠ .created rv) ∧
    (createReview st r today).2 = st ∧
    (findBooking st.bookings r.bookingId = none →
      createReview st r today =
        (.validationError "Invalid booking, property or user Id", st)) ∧
    (∀ b, findBooking st.bookings r.bookingId = some b →
      createReview st r today = (.internalError "AttributeError", st)) := by
  have hsome : ∀ b, findBooking st.bookings r.bookingId = some b →
      createReview st r today = (.internalError "AttributeError", st) := by
    intro b hb
    unfold createReview
    rw [hb]
    rfl
  have hmiss : findBooking st.bookings r.bookingId = none →
      createReview st r today =
        (.validationError "Invalid booking, property or user Id", st) := by
    intro hb
    unfold createReview
    rw [hb]
  refine ⟨?_, ?_, hmiss, hsome⟩
  · intro rv hrv
    cases hb : findBooking st.bookings r.bookingId with
    | none =>
      rw [hmiss hb] at hrv
      exact absurd hrv (by simp)
    | some b =>
      rw [hsome b hb] at hrv
      exact absurd hrv (by simp)
  · cases hb : findBooking st.bookings r.bookingId with
    | none => rw [hmiss hb]
    | some b => rw [hsome b hb]

/-- C5 amended witness: at the concrete store the eligible request fails with
the AttributeError-backed internal error, and with no bookings at all the
booking lookup fails with the validation error. -/
theorem c5_amended_witness :
    createReview exReviewState ⟨0, 1, 7, 5⟩ 10 =
      (.internalError "AttributeError", exReviewState) ∧
    createReview { exReviewState with bookings := [] } ⟨0, 1, 7, 5⟩ 10 =
      (.validationError "Invalid booking, property or user Id",
       { exReviewState with bookings := [] }) :=
  ⟨(c5_amended_create_review_never_succeeds exReviewState ⟨0, 1, 7, 5⟩
      10).2.2.2 ⟨0, 1, 7, 0, 5, 2, 500, .completed⟩ rfl,
   (c5_amended_create_review_never_succeeds
      { exReviewState with bookings := [] } ⟨0, 1, 7, 5⟩ 10).2.2.1 rfl⟩

/-- Models `Listing.average_rating` (models.py): over the listing's reviews,
`sum(review.rating for review in reviews) / len(reviews)` when the review set
is non-empty (Python true division, modelled in ℚ), else 0. -/
def averageRating (reviews : List Review) (l : Listing) : ℚ :=
  if (reviews.filter (fun rv => rv.propertyId == l.propertyId)).isEmpty then 0
  else (((reviews.filter (fun rv => rv.propertyId == l.propertyId)).map
      (fun rv => rv.rating)).sum : ℚ) /
    ((reviews.filter (fun rv => rv.propertyId == l.propertyId)).length : ℚ)

/-- C10. For a listing with zero associated reviews the derived average rating
is 0 — the empty case is guarded, no division by zero is performed — and for a
non-empty review set it is the sum of the ratings divided by their count. -/
theorem c10_average_rating (reviews : List Review) (l : Listing) :
    (reviews.filter (fun rv => rv.propertyId == l.propertyId) = [] →
      averageRating reviews l = 0) ∧
    (reviews.filter (fun rv => rv.propertyId == l.propertyId) ≠ [] →
      averageRating reviews l =
        (((reviews.filter (fun rv => rv.propertyId == l.propertyId)).map
            (fun rv => rv.rating)).sum : ℚ) /
          ((reviews.filter (fun rv => rv.propertyId == l.propertyId)).length :
            ℚ)) := by
  constructor
  · intro h
    unfold averageRating
    rw [if_pos (by simp [h])]
  · intro h
    unfold averageRating
    rw [if_neg (by simpa [List.isEmpty_iff] using h)]

/-- Witness for C10: two reviews of ratings 4 and 5 on listing 1 average to
9/2, and listing 2 with no reviews has average rating 0. -/
theorem c10_average_rating_witness :
    averageRating [⟨0, 0, 1, 7, 4⟩, ⟨1, 1, 1, 8, 5⟩] ⟨1, 9, 4, 100⟩ = 9 / 2 ∧
    averageRating [⟨0, 0, 1, 7, 4⟩, ⟨1, 1, 1, 8, 5⟩] ⟨2, 9, 4, 80⟩ = 0 := by
  constructor
  · rw [(c10_average_rating [⟨0, 0, 1, 7, 4⟩, ⟨1, 1, 1, 8, 5⟩]
      ⟨1, 9, 4, 100⟩).2 (by decide)]
    norm_num [List.filter]
  · exact (c10_average_rating [⟨0, 0, 1, 7, 4⟩, ⟨1, 1, 1, 8, 5⟩]
      ⟨2, 9, 4, 80⟩).1 (by decide)

/-! ## Search availability filters: `ListingFilter.filter_available_from` and
`ListingFilter.filter_available_to` (filters.py) -/

/-- The booking predicate of `ListingFilter.filter_available_from`
(filters.py): `status__in=['pending','confirmed'], start_date__lte=value,
end_date__gt=value`. -/
def conflictsAvailableFrom (b : Booking) (d : ℤ) : Bool :=
  isActiveStatus b.status && b.startDate ≤ d && d < b.endDate

/-- The booking predicate of `ListingFilter.filter_available_to`
(filters.py): `status__in=['pending','confirmed'], start_date__lt=value,
end_date__gte=value`. -/
def conflictsAvailableTo (b : Booking) (d : ℤ) : Bool :=
  isActiveStatus b.status && b.startDate < d && d ≤ b.endDate

/-- The shared exclusion shape of both availability filters:
`queryset.exclude(property_id__in=conflicting_bookings)` keeps exactly the
listings with no booking matching the conflict predicate. -/
def excludeConflicting (bookings : List Booking) (listings : List Listing)
    (conf : Booking → Bool) : List Listing :=
  listings.filter (fun l =>
    ! bookings.any (fun b => b.propertyId == l.propertyId && conf b))

/-- Models `ListingFilter.filter_available_from` applied to a listing queryset. -/
def filterAvailableFrom (bookings : List Booking) (listings : List Listing)
    (d : ℤ) : List Listing :=
  excludeConflicting bookings listings (fun b => conflictsAvailableFrom b d)

/-- Models `ListingFilter.filter_available_to` applied to a listing queryset. -/
def filterAvailableTo (bookings : List Booking) (listings : List Listing)
    (d : ℤ) : List Listing :=
  excludeConflicting bookings listings (fun b => conflictsAvailableTo b d)

/-- Modelled from the claim's words, for comparison with the code: a booking
conflicts with a single boundary date `d` under the half-open overlap rule of
§4.1 exactly when its range overlaps the one-day range `[d, d+1)`, i.e.
`start ≤ d AND d < end`, and the booking is pending or confirmed. -/
def specBoundaryConflict (b : Booking) (d : ℤ) : Bool :=
  isActiveStatus b.status && b.startDate ≤ d && d < b.endDate

/-- Membership in the shared exclusion shape. -/
theorem mem_excludeConflicting (bookings : List Booking)
    (listings : List Listing) (conf : Booking → Bool) (l : Listing) :
    l ∈ excludeConflicting bookings listings conf ↔
      (l ∈ listings ∧ ∀ b ∈ bookings, b.propertyId = l.propertyId →
        conf b = false) := by
  unfold excludeConflicting
  rw [List.mem_filter]
  constructor
  · rintro ⟨hmem, hall⟩
    refine ⟨hmem, ?_⟩
    intro b hb hp
    simp only [Bool.not_eq_true', List.any_eq_false] at hall
    have hfalse := hall b hb
    simpa [hp] using hfalse
  · rintro ⟨hmem, hall⟩
    refine ⟨hmem, ?_⟩
    simp only [Bool.not_eq_true']
    rw [List.any_eq_false]
    intro b hb
    by_cases hp : b.propertyId = l.propertyId
    · simp [hp, hall b hb hp]
    · simp [hp]

/-- C7 counterexample: the pending booking `[0, 5)` does not conflict with the
boundary date 5 under the claim's half-open rule (nor under the
`available_from` predicate), yet the `available_to` filter counts it as a
conflict and excludes its listing — the two filters do not apply the same
rule to the boundary date. -/
theorem c7_counterexample :
    specBoundaryConflict ⟨0, 1, 7, 0, 5, 2, 500, .pending⟩ 5 = false ∧
    conflictsAvailableFrom ⟨0, 1, 7, 0, 5, 2, 500, .pending⟩ 5 = false ∧
    conflictsAvailableTo ⟨0, 1, 7, 0, 5, 2, 500, .pending⟩ 5 = true ∧
    filterAvailableTo [⟨0, 1, 7, 0, 5, 2, 500, .pending⟩] [exListing] 5 = [] :=
  ⟨rfl, rfl, rfl, rfl⟩

/-- C7 amended: `available_from d` keeps exactly the listings with no
pending-or-confirmed booking overlapping the one-day range `[d, d+1)`
(`start ≤ d AND d < end`), while `available_to d` keeps exactly those with no
pending-or-confirmed booking overlapping `[d-1, d)` (`start ≤ d-1 AND
d-1 < end`, i.e. `start < d AND d ≤ end`): the lower bound checks the night
starting at the boundary date and the upper bound the night ending at it,
each derived from the half-open rule but applied to different one-day
ranges. -/
theorem c7_amended_filters_spec (bookings : List Booking)
    (listings : List Listing) (d : ℤ) (l : Listing) :
    (l ∈ filterAvailableFrom bookings listings d ↔
      (l ∈ listings ∧ ∀ b ∈ bookings, b.propertyId = l.propertyId →
        (b.status = .pending ∨ b.status = .confirmed) →
        ¬(b.startDate ≤ d ∧ d < b.endDate))) ∧
    (l ∈ filterAvailableTo bookings listings d ↔
      (l ∈ listings ∧ ∀ b ∈ bookings, b.propertyId = l.propertyId →
        (b.status = .pending ∨ b.status = .confirmed) →
        ¬(b.startDate ≤ d - 1 ∧ d - 1 < b.endDate))) := by
  constructor
  · rw [filterAvailableFrom, mem_excludeConflicting]
    constructor
    · rintro ⟨hmem, hall⟩
      refine ⟨hmem, ?_⟩
      intro b hb hp hact hov
      have hnot : ¬ conflictsAvailableFrom b d = true := by
        simp [hall b hb hp]
      rcases hact with h | h <;>
        simp only [conflictsAvailableFrom, isActiveStatus, h, Bool.true_and,
          Bool.and_eq_true, decide_eq_true_eq] at hnot <;>
        omega
    · rintro ⟨hmem, hall⟩
      refine ⟨hmem, ?_⟩
      intro b hb hp
      cases hst : b.status with
      | canceled => simp [conflictsAvailableFrom, isActiveStatus, hst]
      | completed => simp [conflictsAvailableFrom, isActiveStatus, hst]
      | pending =>
        have hno := hall b hb hp (Or.inl hst)
        simp only [conflictsAvailableFrom, isActiveStatus, hst, Bool.true_and]
        by_cases h1 : b.startDate ≤ d
        · by_cases h2 : d < b.endDate
          · exact absurd ⟨h1, h2⟩ hno
          · simp [h2]
        · simp [h1]
      | confirmed =>
        have hno := hall b hb hp (Or.inr hst)
        simp only [conflictsAvailableFrom, isActiveStatus, hst, Bool.true_and]
        by_cases h1 : b.startDate ≤ d
        · by_cases h2 : d < b.endDate
          · exact absurd ⟨h1, h2⟩ hno
          · simp [h2]
        · simp [h1]
  · rw [filterAvailableTo, mem_excludeConflicting]
    constructor
    · rintro ⟨hmem, hall⟩
      refine ⟨hmem, ?_⟩
      intro b hb hp hact hov
      have hnot : ¬ conflictsAvailableTo b d = true := by
        simp [hall b hb hp]
      rcases hact with h | h <;>
        simp only [conflictsAvailableTo, isActiveStatus, h, Bool.true_and,
          Bool.and_eq_true, decide_eq_true_eq] at hnot <;>
        omega
    · rintro ⟨hmem, hall⟩
      refine ⟨hmem, ?_⟩
      intro b hb hp
      cases hst : b.status with
      | canceled => simp [conflictsAvailableTo, isActiveStatus, hst]
      | completed => simp [conflictsAvailableTo, isActiveStatus, hst]
      | pending =>
        have hno := hall b hb hp (Or.inl hst)
        simp only [conflictsAvailableTo, isActiveStatus, hst, Bool.true_and]
        by_cases h1 : b.startDate < d
        · by_cases h2 : d ≤ b.endDate
          · exact absurd ⟨by omega, by omega⟩ hno
          · simp [h2]
        · simp [h1]
      | confirmed =>
        have hno := hall b hb hp (Or.inr hst)
        simp only [conflictsAvailableTo, isActiveStatus, hst, Bool.true_and]
        by_cases h1 : b.startDate < d
        · by_cases h2 : d ≤ b.endDate
          · exact absurd ⟨by omega, by omega⟩ hno
          · simp [h2]
        · simp [h1]

/-- Witness for the amended C7: against the single pending booking `[0, 5)`,
its listing is kept by `available_from 5` (back-to-back check-in) but
excluded by `available_to 5` (the night `[4, 5)` is taken). -/
theorem c7_amended_witness :
    exListing ∈ filterAvailableFrom [⟨0, 1, 7, 0, 5, 2, 500, .pending⟩]
        [exListing] 5 ∧
    exListing ∉ filterAvailableTo [⟨0, 1, 7, 0, 5, 2, 500, .pending⟩]
        [exListing] 5 := by
  constructor
  · exact (c7_amended_filters_spec [⟨0, 1, 7, 0, 5, 2, 500, .pending⟩]
      [exListing] 5 exListing).1.mpr ⟨by simp, by decide⟩
  · intro hmem
    have h := (c7_amended_filters_spec [⟨0, 1, 7, 0, 5, 2, 500, .pending⟩]
      [exListing] 5 exListing).2.mp hmem
    exact h.2 ⟨0, 1, 7, 0, 5, 2, 500, .pending⟩ (by simp) rfl (Or.inl rfl)
      ⟨by decide, by decide⟩

/-! ## Notification tasks: retry configuration of the `@shared_task`
decorators in tasks.py -/

/-- A Celery task's retry configuration, read off its `@shared_task`
decorator: whether `autoretry_for=(Exception,)` is set, and the `max_retries`
and `countdown` retry kwargs. -/
structure RetryPolicy where
  autoRetry : Bool
  maxRetries : Nat
  countdownSeconds : Nat
deriving DecidableEq, Repr

/-- The `retry_kwargs` written in the decorator of
`send_booking_confirmation_email` (tasks.py line 31): autoretry for
Exception, max_retries 3, countdown 60. This configuration is dead: the task
body catches every Exception itself and calls `self.retry(exc=exc)` (line
198), so the autoretry wrapper — the only consumer of `retry_kwargs` — never
sees the original exception. -/
def confirmationEmailRetryKwargs : RetryPolicy := ⟨true, 3, 60⟩

/-- The `retry_kwargs` written in the decorator of
`send_booking_reminder_email` (tasks.py line 201): autoretry for Exception,
max_retries 2, countdown 120. Dead for the same reason: the body's catch-all
calls `self.retry(exc=exc)` (line 265). -/
def reminderEmailRetryKwargs : RetryPolicy := ⟨true, 2, 120⟩

/-- How a task body reacts to a transient failure, read off the final
`except Exception` block of each task in tasks.py. -/
inductive RetryStyle where
  | explicitSelfRetry
  | reraise
deriving DecidableEq, Repr

/-- Models `send_booking_confirmation_email` (tasks.py): its body ends in
`except Exception as exc: raise self.retry(exc=exc)`. -/
def confirmationEmailTask : RetryStyle := .explicitSelfRetry

/-- Models `send_booking_reminder_email` (tasks.py): its body ends in
`except Exception as exc: raise self.retry(exc=exc)`. -/
def reminderEmailTask : RetryStyle := .explicitSelfRetry

/-- Models `send_booking_cancellation_email` (tasks.py): a bare
`@shared_task(name=...)` without autoretry; its handler ends in `raise exc`,
re-raising to the caller/log. -/
def cancellationEmailTask : RetryStyle := .reraise

/-- Models `send_admin_notification` (tasks.py): a bare
`@shared_task(name=...)` without autoretry; its handler ends in
`raise exc`. -/
def adminNotificationTask : RetryStyle := .reraise

/-- Celery `Task` class default for `max_retries`. -/
def celeryDefaultMaxRetries : Nat := 3

/-- Celery `Task` class default for `default_retry_delay`, in seconds. -/
def celeryDefaultRetryDelay : Nat := 180

/-- The retry behavior a task actually exhibits on a transient failure:
whether a failing run schedules another run, how many retries are allowed,
and after what delay. -/
structure EffectiveRetry where
  retries : Bool
  maxRetries : Nat
  delaySeconds : Nat
deriving DecidableEq, Repr

/-- Models how each retry style resolves. `self.retry(exc=exc)` with no
arguments raises `Retry` using the Task defaults (`self.max_retries = 3`,
`countdown = self.default_retry_delay = 180`); Celery's autoretry wrapper
re-raises `Retry` untouched, so the decorator's `retry_kwargs` are never
applied. A body that re-raises the original exception under a decorator
without `autoretry_for` schedules nothing: the failure propagates to the
worker log / caller. -/
def effectiveRetry : RetryStyle → EffectiveRetry
  | .explicitSelfRetry =>
      ⟨true, celeryDefaultMaxRetries, celeryDefaultRetryDelay⟩
  | .reraise => ⟨false, 0, 0⟩

/-- The number of runs a task with effective retry behavior `p` performs when
its first `failures` attempts raise a transient error: the initial run plus,
when it retries, up to `maxRetries` rescheduled runs, stopping at the first
success. -/
def executions (p : EffectiveRetry) (failures : Nat) : Nat :=
  min (failures + 1) (if p.retries then p.maxRetries + 1 else 1)

/-- Whether a task with effective retry behavior `p` eventually reports
success when its first `failures` attempts raise a transient error. -/
def eventuallySucceeds (p : EffectiveRetry) (failures : Nat) : Bool :=
  failures < (if p.retries then p.maxRetries + 1 else 1)

/-- The delay before a rescheduled attempt: the fixed retry delay for a task
that retries; a non-retrying task never schedules another attempt. -/
def retryDelay (p : EffectiveRetry) : Option Nat :=
  if p.retries then some p.delaySeconds else none

/-- C8 counterexample: the decorator `retry_kwargs` of the confirmation and
reminder tasks do claim countdowns of 60 and 120 seconds and a 2-retry bound
for the reminder, but they are dead configuration — both bodies call
`self.retry(exc=exc)`, so each task effectively retries up to 3 times with a
180-second delay. The claimed 60-second and 120-second initial delays are
wrong, and the reminder task still succeeds after 3 failures (3 retries, not
at most 2). -/
theorem c8_counterexample :
    confirmationEmailRetryKwargs.countdownSeconds = 60 ∧
    reminderEmailRetryKwargs.maxRetries = 2 ∧
    reminderEmailRetryKwargs.countdownSeconds = 120 ∧
    retryDelay (effectiveRetry confirmationEmailTask) = some 180 ∧
    retryDelay (effectiveRetry reminderEmailTask) = some 180 ∧
    eventuallySucceeds (effectiveRetry reminderEmailTask) 3 = true ∧
    executions (effectiveRetry reminderEmailTask) 10 = 4 :=
  ⟨rfl, rfl, rfl, rfl, rfl, rfl, rfl⟩

/-- C8 amended: on transient failure both the confirmation-email and the
reminder-email tasks retry at most 3 times (at most 4 runs, succeeding iff
fewer than 4 attempts fail) with a 180-second initial delay — the explicit
`self.retry(exc=exc)` in their bodies uses the Task defaults and leaves the
decorator `retry_kwargs` dead — while the cancellation-email and
admin-notification tasks never reschedule: one failing run is their only run
and the failure is re-raised to the caller/log. -/
theorem c8_amended_retry_behavior (n : Nat) :
    (retryDelay (effectiveRetry confirmationEmailTask) = some 180 ∧
      executions (effectiveRetry confirmationEmailTask) n ≤ 4 ∧
      (4 ≤ n →
        eventuallySucceeds (effectiveRetry confirmationEmailTask) n = false) ∧
      (n < 4 →
        eventuallySucceeds (effectiveRetry confirmationEmailTask) n = true)) ∧
    (retryDelay (effectiveRetry reminderEmailTask) = some 180 ∧
      executions (effectiveRetry reminderEmailTask) n ≤ 4 ∧
      (4 ≤ n →
        eventuallySucceeds (effectiveRetry reminderEmailTask) n = false) ∧
      (n < 4 →
        eventuallySucceeds (effectiveRetry reminderEmailTask) n = true)) ∧
    (retryDelay (effectiveRetry cancellationEmailTask) = none ∧
      (1 ≤ n → executions (effectiveRetry cancellationEmailTask) n = 1 ∧
        eventuallySucceeds (effectiveRetry cancellationEmailTask) n = false)) ∧
    (retryDelay (effectiveRetry adminNotificationTask) = none ∧
      (1 ≤ n → executions (effectiveRetry adminNotificationTask) n = 1 ∧
        eventuallySucceeds (effectiveRetry adminNotificationTask) n = false)) := by
  refine ⟨⟨rfl, ?_, ?_, ?_⟩, ⟨rfl, ?_, ?_, ?_⟩, ⟨rfl, ?_⟩, ⟨rfl, ?_⟩⟩ <;>
    simp [executions, eventuallySucceeds, effectiveRetry,
      confirmationEmailTask, reminderEmailTask, cancellationEmailTask,
      adminNotificationTask, celeryDefaultMaxRetries] <;>
    omega

/-- C8 amended witness: with 10 straight failures the confirmation task runs
at most 4 times and fails; with only 2 failures the reminder task still
succeeds (a third retry exists); the cancellation and admin tasks run exactly
once and fail. -/
theorem c8_amended_witness :
    (executions (effectiveRetry confirmationEmailTask) 10 ≤ 4 ∧
      eventuallySucceeds (effectiveRetry confirmationEmailTask) 10 = false) ∧
    eventuallySucceeds (effectiveRetry reminderEmailTask) 2 = true ∧
    (executions (effectiveRetry cancellationEmailTask) 10 = 1 ∧
      eventuallySucceeds (effectiveRetry cancellationEmailTask) 10 = false) ∧
    (executions (effectiveRetry adminNotificationTask) 10 = 1 ∧
      eventuallySucceeds (effectiveRetry adminNotificationTask) 10 = false) :=
  ⟨⟨(c8_amended_retry_behavior 10).1.2.1,
    (c8_amended_retry_behavior 10).1.2.2.1 (by decide)⟩,
   (c8_amended_retry_behavior 2).2.1.2.2.2 (by decide),
   (c8_amended_retry_behavior 10).2.2.1.2 (by decide),
   (c8_amended_retry_behavior 10).2.2.2.2 (by decide)⟩

end AlxTravel
